import Mathlib

/-!
# Verification of the OTTY per-contact one-time-pad core

Shallow embedding of the OTTY repository's pad lifecycle and exchange
subsystem, translated from the Python sources:

* `V1.4/otp_helper.py` and `V1.4/otp_manager.py` — per-contact pad store
  (`cipher.txt`, `used_pages.txt`, contact directory);
* `V1.4/otp_generator.py` / `generate_otp.py` — rejection-sampling page
  generation;
* `V1.3/otp_bluetooth_share.py` — the exchange (offer/receive) protocol.

Python strings are modelled as lists of characters (`Str`); a text file is
modelled as the list of its lines (each line without its trailing newline);
the per-contact on-disk state is `ContactFS`.  Timestamps are passed in as
opaque strings.  The SHA-256 digest is an abstract parameter `H` applied to
the canonical byte string the Python code feeds to the hasher.
-/

/-- Python strings are modelled as lists of characters. -/
abbrev Str := List Char

/-- Python `s.strip()`: remove leading and trailing whitespace. -/
def pyStrip (s : Str) : Str :=
  ((s.dropWhile Char.isWhitespace).reverse.dropWhile Char.isWhitespace).reverse

/-- Python `s.split('|')[0]`: the prefix of `s` before the first `'|'`
(all of `s` when `'|'` does not occur).  This is how both
`otp_helper.get_used_page_ids` and `otp_manager.get_used_page_ids` recover a
page ID from a ledger line. -/
def splitFirstField (s : Str) : Str := s.takeWhile (fun c => c != '|')

/-- `PAGE_ID_LENGTH = 8` (otp_helper.py, otp_manager.py, otp_generator.py). -/
def PAGE_ID_LENGTH : Nat := 8

/-- One contact's on-disk state: whether `otp_data/contacts/<id>/` exists,
and the contents of `cipher.txt` and `used_pages.txt` (`none` = the file
does not exist, `some lines` = the file's lines). -/
structure ContactFS where
  dirExists : Bool
  cipher : Option (List Str)
  used : Option (List Str)
deriving DecidableEq

/-- `otp_helper.OTPHelper.get_pad_pages` / `otp_manager.get_all_pages`:
read `cipher.txt` and keep each line whose stripped length exceeds
`PAGE_ID_LENGTH` (short or blank lines are skipped, not fatal).  Returns
`[]` when the file does not exist. -/
def get_pad_pages (s : ContactFS) : List Str :=
  match s.cipher with
  | none => []
  | some lines => lines.filter (fun l => decide (PAGE_ID_LENGTH < (pyStrip l).length))

/-- `otp_helper.OTPHelper.get_used_page_ids` / `otp_manager.get_used_page_ids`:
for each non-blank line of `used_pages.txt`, `line.strip().split('|')[0]`.
The Python code builds a set; we keep a list and use it only through
membership. -/
def get_used_page_ids (s : ContactFS) : List Str :=
  match s.used with
  | none => []
  | some lines =>
      lines.filterMap (fun l =>
        if (pyStrip l).isEmpty then none else some (splitFirstField (pyStrip l)))

/-- `otp_manager.has_pad` / `otp_helper.contact_has_pad`:
`cipher.txt` exists and has size > 0 (a file written from a list of lines is
non-empty iff the list is non-empty). -/
def has_pad (s : ContactFS) : Bool :=
  match s.cipher with
  | none => false
  | some lines => !lines.isEmpty

/-- The ledger append of `otp_helper` (`f"{page_id}|{direction}|{timestamp}"`
written to `used_pages.txt`, creating the parent directory). -/
def mark_page_used (s : ContactFS) (page_id direction ts : Str) : ContactFS :=
  { s with
    dirExists := true
    used := some ((s.used.getD []) ++ [page_id ++ "|".toList ++ direction ++ "|".toList ++ ts]) }

/-- The scan loop of `otp_helper.get_page_for_contact`: walk the pages in
file order, return the first whose leading 8 characters are not in
`used_ids`, marking it used (direction `sent`). -/
def allocScan (s : ContactFS) (ts : Str) (used_ids : List Str) :
    List Str → Option ((Str × Str) × ContactFS)
  | [] => none
  | page :: rest =>
      let page_id := page.take PAGE_ID_LENGTH
      if used_ids.contains page_id then
        allocScan s ts used_ids rest
      else
        some ((page_id, page.drop PAGE_ID_LENGTH), mark_page_used s page_id "sent".toList ts)

/-- `otp_helper.OTPHelper.get_page_for_contact` (the spec's
`allocate_next_unused`): returns `((page_id, content), state')` for the first
unused page, or `none`; the returned state has the `sent` ledger record
appended.  `otp_manager.get_next_available_page` is the same scan with a
two-field ledger record. -/
def get_page_for_contact (s : ContactFS) (ts : Str) : Option ((Str × Str) × ContactFS) :=
  allocScan s ts (get_used_page_ids s) (get_pad_pages s)

/-- The scan loop of `otp_helper.find_page_for_decryption`: first page whose
leading 8 characters equal `page_id`; mark it used (direction `received`)
only if not already in `used_ids`. -/
def findScan (s : ContactFS) (page_id ts : Str) (used_ids : List Str) :
    List Str → Option Str × ContactFS
  | [] => (none, s)
  | page :: rest =>
      if page.take PAGE_ID_LENGTH = page_id then
        (some (page.drop PAGE_ID_LENGTH),
          if used_ids.contains page_id then s
          else mark_page_used s page_id "received".toList ts)
      else findScan s page_id ts used_ids rest

/-- `otp_helper.OTPHelper.find_page_for_decryption` (the spec's
`lookup_for_decrypt`): returns `(content?, state')`. -/
def find_page_for_decryption (s : ContactFS) (page_id ts : Str) : Option Str × ContactFS :=
  findScan s page_id ts (get_used_page_ids s) (get_pad_pages s)

/-- `otp_manager.ContactPadManager.delete_used_pages` (the spec's `compact`):
if no IDs are recorded, return 0; otherwise rewrite `cipher.txt` with only
the pages whose ID is not recorded, delete `used_pages.txt`, and return the
number of pages dropped.  (Reading the files creates the contact directory.) -/
def delete_used_pages (s : ContactFS) : Nat × ContactFS :=
  let used_ids := get_used_page_ids s
  if used_ids.isEmpty then (0, { s with dirExists := true })
  else
    let pages := get_pad_pages s
    let remaining := pages.filter (fun p => !used_ids.contains (p.take PAGE_ID_LENGTH))
    (pages.length - remaining.length,
      { dirExists := true, cipher := some remaining, used := none })

/-- `otp_manager.ContactPadManager.delete_pad`: `get_contact_dir` creates the
contact directory as a side effect, then the directory (which therefore
exists) is removed recursively and `True` is returned. -/
def delete_pad (s : ContactFS) : Bool × ContactFS :=
  let s₁ : ContactFS := { s with dirExists := true }
  if s₁.dirExists then (true, { dirExists := false, cipher := none, used := none })
  else (false, s₁)

/-- `otp_manager.ContactPadManager.import_pad_for_contact`: refuse when
`cipher.txt` exists with size > 0 (nothing is written); otherwise write the
pages to `cipher.txt`, delete `used_pages.txt`, and report the count.
(Metadata written to `info.json` is not modelled.)  The `(Bool × Str)` is the
Python `(success, message)` pair. -/
def import_pad_for_contact (s : ContactFS) (pages : List Str) : (Bool × Str) × ContactFS :=
  if has_pad s then
    ((false, "Contact already has a cipher pad. Delete it first to import.".toList), s)
  else
    ((true, ("Imported " ++ toString pages.length ++ " pages for contact").toList),
      { dirExists := true, cipher := some pages, used := none })

/-! ## Exchange protocol (`V1.3/otp_bluetooth_share.py`) -/

/-- Python string `<=` (lexicographic on characters), as used by `sorted`. -/
def strLe : Str → Str → Bool
  | [], _ => true
  | _ :: _, [] => false
  | a :: as, b :: bs => if a = b then strLe as bs else decide (a < b)

/-- Insertion step for modelling Python `sorted`. -/
def insertSorted (x : Str) : List Str → List Str
  | [] => [x]
  | y :: ys => if strLe x y then x :: y :: ys else y :: insertSorted x ys

/-- Python `sorted(pages)`: the pages in non-decreasing lexicographic order. -/
def pySorted (l : List Str) : List Str := l.foldr insertSorted []

/-- `calculate_pages_hash`: feed the sorted pages, in order, to a SHA-256
hasher and return the hex digest.  Feeding strings one by one hashes their
concatenation, so the digest is an abstract hash function `H` applied to the
concatenation of the sorted pages. -/
def calculate_pages_hash (H : Str → Str) (pages : List Str) : Str :=
  H (pySorted pages).flatten

/-- The V1.3 store touched by the receiver: the lines of the single global
`otp_cipher.txt`. -/
abbrev OtpFile := List Str

/-- `add_pages_to_file`: append each page as a line to `otp_cipher.txt`. -/
def add_pages_to_file (file : OtpFile) (pages : List Str) : OtpFile :=
  file ++ pages

/-- The verification-and-commit tail of `BluetoothServer.receive_pages`
(after the header and the page batch have been parsed): compare the digest
of the sorted received pages with the header's digest; on mismatch send
`ERROR: Hash mismatch!` and return without touching the store; on match send
`OK: Received <n> pages` and append the pages.  Result: `(reply, store')`. -/
def receive_pages (H : Str → Str) (file : OtpFile) (expected_hash : Str)
    (pages : List Str) : Str × OtpFile :=
  if calculate_pages_hash H pages ≠ expected_hash then
    ("ERROR: Hash mismatch!".toList, file)
  else
    (("OK: Received " ++ toString pages.length ++ " pages").toList,
      add_pages_to_file file pages)

/-- Modelled from the spec: V1.4 has no `otp_bluetooth_share.py` under
`src/`, so the V1.4 receiver wiring (spec §4.4 step 5: on digest match the
Receiver commits the batch via the pad store's create-pad operation, which
is `import_pad_for_contact` in `V1.4/otp_manager.py`) is reconstructed from
the spec's words; the digest check and the commit operation themselves are
translated from the source (`calculate_pages_hash`,
`import_pad_for_contact`). -/
def receive_pages_v14 (H : Str → Str) (s : ContactFS) (expected_hash : Str)
    (pages : List Str) : Str × ContactFS :=
  if calculate_pages_hash H pages ≠ expected_hash then
    ("ERROR: Hash mismatch!".toList, s)
  else
    let r := import_pad_for_contact s pages
    if r.1.1 then
      (("OK: Received " ++ toString pages.length ++ " pages").toList, r.2)
    else
      ("ERROR: ".toList ++ r.1.2, r.2)

/-! ## Page generation (`V1.4/otp_generator.py`, `generate_otp.py`) -/

/-- The 68-character alphabet
`string.ascii_uppercase + string.digits + string.punctuation`. -/
def chars : Str :=
  ("ABCDEFGHIJKLMNOPQRSTUVWXYZ0123456789!\"#$%&\x27()*+,-./:;<=>?@[\\]^_\x60\x7b|\x7d~").toList

/-- `charset_len = len(chars)`. -/
def charset_len : Nat := chars.length

/-- The rejection-sampling limit hard-coded as `limit = 204` in
`generate_random_page` / `generate_hwrng_page`. -/
def limit : Nat := 204

/-- Models the `IOError("Failed to read from RNG device.")` raised when a
read returns zero bytes — the spec's `EntropySourceExhausted`. -/
inductive GenError where
  | entropySourceExhausted
deriving DecidableEq

/-- The inner `for byte in raw_bytes` loop of `generate_random_page`:
append `chars[byte % charset_len]` for each byte below `limit`, breaking as
soon as `needed` symbols have been produced (remaining chunk bytes are
discarded). -/
def sampleBytes (needed : Nat) : List Nat → Str
  | [] => []
  | b :: rest =>
      if b < limit then
        chars.getD (b % charset_len) ' ' ::
          (if needed - 1 = 0 then [] else sampleBytes (needed - 1) rest)
      else sampleBytes needed rest

/-- The `while len(result) < length` loop of `generate_random_page`,
fuel-indexed so that it is structurally recursive: read a chunk of
`(length - len(result)) * 4` bytes from the source; raise if the read
returns zero bytes; otherwise process the chunk and continue.  The source is
the finite byte stream `src`; a read of `n` bytes consumes up to `n` of
them.  Every iteration either terminates or consumes at least one byte, so
fuel `src.length + 1` (supplied by `generateLoop`) never runs out and the
fuel-exhaustion branch is unreachable. -/
def generateLoopF (length : Nat) : Nat → List Nat → Str → Except GenError (Str × List Nat)
  | 0, _, _ => .error .entropySourceExhausted
  | fuel + 1, src, result =>
      if result.length < length then
        let chunkSize := (length - result.length) * 4
        if (src.take chunkSize).isEmpty then .error .entropySourceExhausted
        else
          generateLoopF length fuel (src.drop chunkSize)
            (result ++ sampleBytes (length - result.length) (src.take chunkSize))
      else .ok (result, src)

/-- The `while` loop of `generate_random_page`, run on the byte stream
`src`: the fuel `src.length + 1` is enough for the loop to run to
completion (each iteration consumes at least one byte or exits).
Returns the produced symbols and the unconsumed stream. -/
def generateLoop (length : Nat) (src : List Nat) (result : Str) :
    Except GenError (Str × List Nat) :=
  generateLoopF length (src.length + 1) src result

/-- The `include_id` step of `generate_random_page`: prepend the first
`PAGE_ID_LENGTH` symbols of the content as the page ID (the spec's
`encode`). -/
def addPageId (page_content : Str) : Str :=
  page_content.take PAGE_ID_LENGTH ++ page_content

/-- `generate_random_page(rng_file, length, include_id)`:
run the sampling loop on the stream, then optionally prepend the page ID. -/
def generate_random_page (src : List Nat) (length : Nat) (include_id : Bool) :
    Except GenError (Str × List Nat) :=
  match generateLoop length src [] with
  | .error e => .error e
  | .ok (page_content, rest) =>
      if include_id then .ok (addPageId page_content, rest)
      else .ok (page_content, rest)

/-- The codec failure of spec §4.2. -/
inductive CodecError where
  | malformedPage
deriving DecidableEq

deriving instance DecidableEq for Except

/-- Modelled from the spec: no standalone decode function exists in `src/`
(decoding is inline slicing `raw[0:8]` / `raw[8:]` at call sites); per §4.2,
`decode(raw)` splits `raw` into `(raw[0:8], raw[8:])` and fails with
`MalformedPage` when `len(raw) <= 8`. -/
def decode (raw : Str) : Except CodecError (Str × Str) :=
  if raw.length ≤ PAGE_ID_LENGTH then .error .malformedPage
  else .ok (raw.take PAGE_ID_LENGTH, raw.drop PAGE_ID_LENGTH)

/-! ## Helper lemmas -/

theorem get_pad_pages_cipher_congr (s t : ContactFS) (h : s.cipher = t.cipher) :
    get_pad_pages s = get_pad_pages t := by
  unfold get_pad_pages
  rw [h]

theorem get_used_page_ids_used_congr (s t : ContactFS) (h : s.used = t.used) :
    get_used_page_ids s = get_used_page_ids t := by
  unfold get_used_page_ids
  rw [h]

theorem mem_get_pad_pages (s : ContactFS) (p : Str) (hp : p ∈ get_pad_pages s) :
    decide (PAGE_ID_LENGTH < (pyStrip p).length) = true := by
  obtain ⟨d, c, u⟩ := s
  cases c with
  | none => simp [get_pad_pages] at hp
  | some lines =>
      simp only [get_pad_pages, List.mem_filter] at hp
      exact hp.2

theorem sampleBytes_eq (bytes : List Nat) : ∀ m : Nat,
    sampleBytes (m + 1) bytes =
      ((bytes.filter (fun b => decide (b < limit))).take (m + 1)).map
        (fun b => chars.getD (b % charset_len) ' ') := by
  induction bytes with
  | nil => intro m; rfl
  | cons b rest ih =>
      intro m
      by_cases hb : b < limit
      · cases m with
        | zero => simp [sampleBytes, hb, List.filter_cons]
        | succ k => simp [sampleBytes, hb, List.filter_cons, ih k]
      · simp [sampleBytes, hb, List.filter_cons, ih m]

theorem sampleBytes_length_le (bytes : List Nat) (m : Nat) :
    (sampleBytes (m + 1) bytes).length ≤ m + 1 := by
  rw [sampleBytes_eq]
  simp [List.length_take]

theorem generateLoopF_ok_length (length : Nat) :
    ∀ (fuel : Nat) (src : List Nat) (result res : Str) (rest : List Nat),
      result.length ≤ length →
      generateLoopF length fuel src result = Except.ok (res, rest) →
      res.length = length := by
  intro fuel
  induction fuel with
  | zero =>
      intro src result res rest _ h
      simp [generateLoopF] at h
  | succ k ih =>
      intro src result res rest hr h
      rw [generateLoopF] at h
      by_cases hlt : result.length < length
      · rw [if_pos hlt] at h
        by_cases hemp : (src.take ((length - result.length) * 4)).isEmpty
        · rw [if_pos hemp] at h; cases h
        · rw [if_neg hemp] at h
          refine ih _ _ res rest ?_ h
          obtain ⟨m, hm⟩ : ∃ m, length - result.length = m + 1 :=
            ⟨length - result.length - 1, by omega⟩
          have hle := sampleBytes_length_le (src.take ((length - result.length) * 4)) m
          rw [← hm] at hle
          simp only [List.length_append]
          omega
      · rw [if_neg hlt] at h
        cases h
        omega

theorem generateLoop_ok_length (length : Nat) (src : List Nat) (res : Str) (rest : List Nat)
    (h : generateLoop length src [] = Except.ok (res, rest)) : res.length = length :=
  generateLoopF_ok_length length (src.length + 1) src [] res rest (by simp) h

theorem generateLoop_empty_read (length : Nat) (src : List Nat) (result : Str)
    (h1 : result.length < length)
    (h2 : (src.take ((length - result.length) * 4)).isEmpty = true) :
    generateLoop length src result = Except.error GenError.entropySourceExhausted := by
  unfold generateLoop
  rw [generateLoopF, if_pos h1, if_pos h2]

/-! ## Claim theorems -/

/-- Characterization of the allocation scan: `get_page_for_contact` equals
`List.find?` over the pages in on-disk storage order, selecting the first
page whose ID is absent from the set the code parses out of the ledger
(each recorded line stripped and truncated at its first `'|'`); the result
carries a state with a `sent` record appended, and is `none` when every
page's ID is in the parsed set.  Note the parsed set is not the set of
recorded IDs when a recorded ID itself contains `'|'`. -/
theorem allocate_next_unused_spec (s : ContactFS) (ts : Str) :
    get_page_for_contact s ts =
      ((get_pad_pages s).find?
          (fun p => !(get_used_page_ids s).contains (p.take PAGE_ID_LENGTH))).map
        (fun p => ((p.take PAGE_ID_LENGTH, p.drop PAGE_ID_LENGTH),
          mark_page_used s (p.take PAGE_ID_LENGTH) "sent".toList ts)) := by
  unfold get_page_for_contact
  generalize get_pad_pages s = pages
  induction pages with
  | nil => rfl
  | cons page rest ih =>
      simp only [allocScan]
      cases hc : (get_used_page_ids s).contains (page.take PAGE_ID_LENGTH) with
      | true =>
          have hmem : List.take PAGE_ID_LENGTH page ∈ get_used_page_ids s := by simpa using hc
          rw [List.find?_cons_of_neg _ (by simp [hmem]), ← ih]
          rfl
      | false =>
          have hmem : List.take PAGE_ID_LENGTH page ∉ get_used_page_ids s := by simpa using hc
          rw [List.find?_cons_of_pos _ (by simp [hmem])]
          rfl

/-- C10: `delete_pad` returns `True` for every contact state — even one
that never had a pad — because resolving the contact directory creates it,
so the existence check always succeeds and the directory is removed. -/
theorem delete_pad_always_true (s : ContactFS) :
    delete_pad s = (true, { dirExists := false, cipher := none, used := none }) := rfl

/-- Characterization of `delete_used_pages`: the rewritten pad holds
exactly the pages whose IDs are absent from the set the code parses out of
the ledger (each recorded line stripped and truncated at its first `'|'`),
in their original order; the parsed ledger is empty afterwards; the
returned count is the number of pages removed, and the partition conjunct
relates kept and removed counts.  Note the parsed set is not the set of
recorded IDs when a recorded ID itself contains `'|'`. -/
theorem compact_spec (s : ContactFS) :
    get_pad_pages (delete_used_pages s).2 =
      (get_pad_pages s).filter
        (fun p => !(get_used_page_ids s).contains (p.take PAGE_ID_LENGTH))
    ∧ get_used_page_ids (delete_used_pages s).2 = []
    ∧ (delete_used_pages s).1 =
        (get_pad_pages s).length - (get_pad_pages (delete_used_pages s).2).length
    ∧ ((get_pad_pages s).filter
          (fun p => (get_used_page_ids s).contains (p.take PAGE_ID_LENGTH))).length
        + (get_pad_pages (delete_used_pages s).2).length = (get_pad_pages s).length := by
  cases hu : (get_used_page_ids s).isEmpty with
  | true =>
      have hids : get_used_page_ids s = [] := List.isEmpty_iff.mp hu
      have hstep : delete_used_pages s = (0, { s with dirExists := true }) := by
        simp only [delete_used_pages, hu, if_true]
      have hpads : get_pad_pages { s with dirExists := true } = get_pad_pages s :=
        get_pad_pages_cipher_congr _ _ rfl
      have husd : get_used_page_ids { s with dirExists := true } = get_used_page_ids s :=
        get_used_page_ids_used_congr _ _ rfl
      rw [hstep]
      simp [hpads, husd, hids]
  | false =>
      have hstep : delete_used_pages s =
          ((get_pad_pages s).length -
             ((get_pad_pages s).filter
               (fun p => !(get_used_page_ids s).contains (p.take PAGE_ID_LENGTH))).length,
           { dirExists := true,
             cipher := some ((get_pad_pages s).filter
               (fun p => !(get_used_page_ids s).contains (p.take PAGE_ID_LENGTH))),
             used := none }) := by
        simp only [delete_used_pages, hu]
        rfl
      have hkeep : get_pad_pages
          ({ dirExists := true,
             cipher := some ((get_pad_pages s).filter
               (fun p => !(get_used_page_ids s).contains (p.take PAGE_ID_LENGTH))),
             used := none } : ContactFS) =
          (get_pad_pages s).filter
            (fun p => !(get_used_page_ids s).contains (p.take PAGE_ID_LENGTH)) := by
        unfold get_pad_pages
        exact List.filter_eq_self.mpr
          (fun p hp => mem_get_pad_pages s p (List.mem_of_mem_filter hp))
      have hcount := List.length_eq_length_filter_add
        (l := get_pad_pages s)
        (fun p => (get_used_page_ids s).contains (p.take PAGE_ID_LENGTH))
      rw [hstep]
      refine ⟨hkeep, rfl, by rw [hkeep], ?_⟩
      rw [hkeep]
      omega

/-- C2: when the receiver-computed digest over the sorted received pages
differs from the Header digest, the receiver replies
`ERROR: Hash mismatch!` and the pad store is left exactly as it was: no
received page is written. -/
theorem receive_mismatch_no_commit (H : Str → Str) (file : OtpFile)
    (expected_hash : Str) (pages : List Str)
    (h : calculate_pages_hash H pages ≠ expected_hash) :
    receive_pages H file expected_hash pages = ("ERROR: Hash mismatch!".toList, file) := by
  rw [receive_pages, if_pos h]

/-- Witness for C2: a concrete transfer whose digest does not match is
rejected and leaves the store untouched. -/
theorem receive_mismatch_no_commit_witness :
    receive_pages (fun s => s) ["OLDPAGE0OLDCONTENT".toList] []
        ["ABCDEFGHIJ".toList] =
      ("ERROR: Hash mismatch!".toList, ["OLDPAGE0OLDCONTENT".toList]) :=
  receive_mismatch_no_commit (fun s => s) ["OLDPAGE0OLDCONTENT".toList] []
    ["ABCDEFGHIJ".toList] (by decide)

/-- C3: when the receiver-computed digest matches the Header digest, the
receiver commits the batch through the pad store's create-pad operation
(`import_pad_for_contact`): if a non-empty pad already exists for the
contact it is rejected — the state is unchanged, nothing written — with the
pad-already-exists message, and otherwise the pages are committed and the
reply is an `OK` acknowledgment carrying the committed page count. -/
theorem receive_match_commit_spec (H : Str → Str) (s : ContactFS)
    (expected_hash : Str) (pages : List Str)
    (h : calculate_pages_hash H pages = expected_hash) :
    (has_pad s = true →
      receive_pages_v14 H s expected_hash pages =
        ("ERROR: ".toList ++
          "Contact already has a cipher pad. Delete it first to import.".toList, s))
    ∧ (has_pad s = false →
      receive_pages_v14 H s expected_hash pages =
        (("OK: Received " ++ toString pages.length ++ " pages").toList,
          { dirExists := true, cipher := some pages, used := none })) := by
  constructor <;> intro hp <;>
    simp [receive_pages_v14, import_pad_for_contact, h, hp]

/-- Witness for C3: a concrete matching transfer to a contact with no pad
commits the pages and acknowledges the count; the same transfer to a
contact that already holds a non-empty pad is rejected unchanged. -/
theorem receive_match_commit_spec_witness :
    receive_pages_v14 (fun _ => []) ⟨false, none, none⟩ [] ["ABCDEFGHIJ".toList] =
      (("OK: Received " ++ toString 1 ++ " pages").toList,
        { dirExists := true, cipher := some ["ABCDEFGHIJ".toList], used := none })
    ∧ receive_pages_v14 (fun _ => []) ⟨true, some ["XYZPAGE00CONTENT".toList], none⟩ []
        ["ABCDEFGHIJ".toList] =
      ("ERROR: ".toList ++
        "Contact already has a cipher pad. Delete it first to import.".toList,
        ⟨true, some ["XYZPAGE00CONTENT".toList], none⟩) :=
  ⟨by
    have h := (receive_match_commit_spec (fun _ => []) ⟨false, none, none⟩ []
      ["ABCDEFGHIJ".toList] (by decide)).2 (by decide)
    simpa using h,
   by
    have h := (receive_match_commit_spec (fun _ => [])
      ⟨true, some ["XYZPAGE00CONTENT".toList], none⟩ []
      ["ABCDEFGHIJ".toList] (by decide)).1 (by decide)
    simpa using h⟩

/-- C1 (failing run): `'|'` is one of the 68 pad symbols, but the used-page
ledger is parsed with `line.strip().split('|')[0]`, so a recorded ID that
itself contains `'|'` is truncated at its first `'|'`.  On a pad whose only
page has ID `AB|CDEFG`, two successive calls of `allocate_next_unused`
both return the very same page ID: after the first call the ledger holds
`AB|CDEFG|sent|T1`, which is parsed back as the ID `AB`, so the second scan
still considers the page unused. -/
theorem alloc_returns_same_id_twice :
    get_page_for_contact ⟨true, some ["AB|CDEFGXYZA".toList], none⟩ "T1".toList =
      some (("AB|CDEFG".toList, "XYZA".toList),
        ⟨true, some ["AB|CDEFGXYZA".toList], some ["AB|CDEFG|sent|T1".toList]⟩)
    ∧ get_page_for_contact
        ⟨true, some ["AB|CDEFGXYZA".toList], some ["AB|CDEFG|sent|T1".toList]⟩
        "T2".toList =
      some (("AB|CDEFG".toList, "XYZA".toList),
        ⟨true, some ["AB|CDEFGXYZA".toList],
          some ["AB|CDEFG|sent|T1".toList, "AB|CDEFG|sent|T2".toList]⟩) := by
  decide

/-- C6 (failing run): with the same `'|'`-carrying page ID, the first
decrypt lookup appends a `received` record, but the second lookup of the
same ID appends a second record (instead of nothing), because the ledger
line `AB|CDEFG|received|T1` is parsed back as the ID `AB`.  Both calls do
return the same content. -/
theorem lookup_double_marks_id :
    find_page_for_decryption ⟨true, some ["AB|CDEFGXYZA".toList], none⟩
        "AB|CDEFG".toList "T1".toList =
      (some "XYZA".toList,
        ⟨true, some ["AB|CDEFGXYZA".toList], some ["AB|CDEFG|received|T1".toList]⟩)
    ∧ find_page_for_decryption
        ⟨true, some ["AB|CDEFGXYZA".toList], some ["AB|CDEFG|received|T1".toList]⟩
        "AB|CDEFG".toList "T2".toList =
      (some "XYZA".toList,
        ⟨true, some ["AB|CDEFGXYZA".toList],
          some ["AB|CDEFG|received|T1".toList, "AB|CDEFG|received|T2".toList]⟩) := by
  decide

/-- C7 (counterexample): the round trip does not hold for every content of
positive length.  At the one-character content `A`, the encoded page `AA`
has length 2 ≤ 8, so decoding fails with `MalformedPage` instead of
returning the content. -/
theorem codec_round_trip_counterexample :
    ¬ ∀ c : Str, 0 < c.length →
        decode (addPageId c) = Except.ok ((addPageId c).take PAGE_ID_LENGTH, c) := by
  intro hall
  have h := hall "A".toList (by decide)
  revert h
  decide

/-- C7 (amended): encoding then decoding yields the original content for
every content of length ≥ 8 (all generated pages have content length 3500);
decoding a raw string of length ≤ 8 fails with `MalformedPage`; and pad
storage parsing keeps exactly the lines that strictly exceed the ID length
after stripping — shorter (corrupt/blank) lines are skipped, not fatal. -/
theorem codec_round_trip_amended :
    (∀ c : Str, PAGE_ID_LENGTH ≤ c.length →
      decode (addPageId c) = Except.ok (c.take PAGE_ID_LENGTH, c))
    ∧ (∀ raw : Str, raw.length ≤ PAGE_ID_LENGTH →
      decode raw = Except.error CodecError.malformedPage)
    ∧ (∀ s : ContactFS, ∀ l ∈ get_pad_pages s, PAGE_ID_LENGTH < (pyStrip l).length) := by
  refine ⟨?_, ?_, ?_⟩
  · intro c hc
    have hpid : PAGE_ID_LENGTH = 8 := rfl
    have hlen8 : (c.take PAGE_ID_LENGTH).length = PAGE_ID_LENGTH := by
      simp only [List.length_take]
      omega
    have hlen : (addPageId c).length = PAGE_ID_LENGTH + c.length := by
      simp [addPageId, List.length_append, hlen8]
    rw [decode, if_neg (by rw [hlen]; omega)]
    rw [addPageId, List.take_left' hlen8, List.drop_left' hlen8]
  · intro raw h
    rw [decode, if_pos h]
  · intro s l hl
    have h := mem_get_pad_pages s l hl
    simpa using h

/-- Witness for the amended C7: a concrete content of length 10 round-trips
through encode and decode. -/
theorem codec_round_trip_amended_witness :
    decode (addPageId "ABCDEFGHXY".toList) =
      Except.ok (("ABCDEFGHXY".toList).take PAGE_ID_LENGTH, "ABCDEFGHXY".toList) :=
  codec_round_trip_amended.1 "ABCDEFGHXY".toList (by decide)

/-- C5: the entropy sampler over the 68-symbol alphabet uses the rejection
limit 204 = floor(256/68)·68; a processed chunk contributes exactly the
accepted bytes (those `< 204`, each mapped through `b % 68` into the
alphabet, in order — all bytes `≥ 204` are rejected), truncated at the
remaining quota; and a successful run of the read loop emits exactly the
requested number of symbols — never more, never fewer. -/
theorem entropy_sampler_spec :
    (limit = (256 / charset_len) * charset_len ∧ charset_len = 68)
    ∧ (∀ (bytes : List Nat) (m : Nat),
        sampleBytes (m + 1) bytes =
          ((bytes.filter (fun b => decide (b < limit))).take (m + 1)).map
            (fun b => chars.getD (b % charset_len) ' '))
    ∧ (∀ (length : Nat) (src : List Nat) (res : Str) (rest : List Nat),
        generateLoop length src [] = Except.ok (res, rest) → res.length = length) :=
  ⟨by decide,
   fun bytes m => sampleBytes_eq bytes m,
   fun length src res rest h => generateLoop_ok_length length src res rest h⟩

/-- Witness for C5: a concrete run over the byte stream `[0, 210, 69]`
requesting 2 symbols succeeds and emits exactly 2 symbols (`A` from byte 0
and `B` from byte 69, with 210 ≥ 204 rejected). -/
theorem entropy_sampler_spec_witness : ("AB".toList : Str).length = 2 :=
  entropy_sampler_spec.2.2 2 [0, 210, 69] "AB".toList [] (by decide)

/-- C9: if the randomness source returns zero bytes on a read before the
requested number of symbols has been collected, the generation loop fails
with `EntropySourceExhausted`; and a run never instead returns fewer
symbols than requested. -/
theorem entropy_exhaustion_spec :
    (∀ (length : Nat) (src : List Nat) (result : Str),
        result.length < length →
        (src.take ((length - result.length) * 4)).isEmpty = true →
        generateLoop length src result = Except.error GenError.entropySourceExhausted)
    ∧ (∀ (length : Nat) (src : List Nat) (res : Str) (rest : List Nat),
        generateLoop length src [] = Except.ok (res, rest) → ¬res.length < length) :=
  ⟨generateLoop_empty_read,
   fun length src res rest h => by
     rw [generateLoop_ok_length length src res rest h]
     omega⟩

/-- Witness for C9: a source that is already exhausted (the read returns
zero bytes) makes generation fail with `EntropySourceExhausted` although
only 2 of the 5 requested symbols were collected. -/
theorem entropy_exhaustion_spec_witness :
    generateLoop 5 [] "AB".toList = Except.error GenError.entropySourceExhausted :=
  entropy_exhaustion_spec.1 5 [] "AB".toList (by decide) (by decide)

/-- C4 (failing run): the claim — allocation returns the first page whose
ID is absent from the used-page ledger, and `None` when no unused page
remains — is false of the code.  Here the ledger's single line is a `sent`
record whose recorded ID (its first 8 characters) is exactly the pad's
only page ID `AB|CDEFG`, so no unused page remains and the claim demands
`None`; but `line.strip().split('|')[0]` truncates the recorded ID at its
first `'|'` (a legitimate pad symbol) to `AB`, and the allocator returns
that very page again, appending a second record. -/
theorem alloc_returns_recorded_id :
    ("AB|CDEFG|sent|T1".toList).take PAGE_ID_LENGTH =
      ("AB|CDEFGXYZA".toList).take PAGE_ID_LENGTH
    ∧ get_page_for_contact
        ⟨true, some ["AB|CDEFGXYZA".toList], some ["AB|CDEFG|sent|T1".toList]⟩
        "T2".toList =
      some (("AB|CDEFG".toList, "XYZA".toList),
        ⟨true, some ["AB|CDEFGXYZA".toList],
          some ["AB|CDEFG|sent|T1".toList, "AB|CDEFG|sent|T2".toList]⟩) := by
  decide

/-- C8 (failing run): the claim — compact leaves exactly the pages whose
IDs are absent from the used-page ledger and returns the number removed —
is false of the code.  The ledger's single line records the pad's only
page ID `AB|CDEFG` (its first 8 characters), so the claim demands that
page be removed (count 1); but the `split('|')[0]` parse yields `AB`,
which matches no 8-character page ID, so `delete_used_pages` removes 0
pages, keeps the consumed page in the pad, and still clears the ledger. -/
theorem compact_keeps_recorded_page :
    ("AB|CDEFG|sent|T1".toList).take PAGE_ID_LENGTH =
      ("AB|CDEFGXYZA".toList).take PAGE_ID_LENGTH
    ∧ delete_used_pages
        ⟨true, some ["AB|CDEFGXYZA".toList], some ["AB|CDEFG|sent|T1".toList]⟩ =
      (0, ⟨true, some ["AB|CDEFGXYZA".toList], none⟩) := by
  decide
